import Mathlib

/-!
Verification of the brickblock pipeline engine
(src/brickblock/pipeline/base_pipeline.py).

The embedding models pydantic model classes as `ModelClass` values carrying a
class identity (`id`), the ids of the class and all its ancestors
(`superIds`, used for `isinstance`), and the outcome of constructing an
instance from a mapping (`constructExn`, `none` meaning construction
succeeds and stores the mapping).  Runtime values are `Value`: a pydantic
model instance, a plain dict, or any other (non-BaseModel, non-dict)
object.  Python exceptions are `Exn`, split the way `build` catches them:
`TypeError`, `ValueError`, and everything else.
-/

namespace Brickblock

abbrev Payload := List (String × Int)

inductive Exn where
  | typeError (msg : String)
  | valueError (msg : String)
  | other (msg : String)
deriving DecidableEq, Repr

def Exn.msg : Exn → String
  | .typeError m => m
  | .valueError m => m
  | .other m => m

structure ModelClass where
  id : Nat
  superIds : List Nat
  constructExn : Payload → Option Exn

inductive Value where
  | model (cls : ModelClass) (data : Payload)
  | dict (data : Payload)
  | raw (s : String)

def ModelClass.construct (cls : ModelClass) (d : Payload) : Except Exn Value :=
  match cls.constructExn d with
  | some e => .error e
  | none => .ok (.model cls d)

def constructOpt : Option ModelClass → Payload → Except Exn Value
  | none, _ => .error (.typeError "NoneType object is not callable")
  | some m, d => m.construct d

def parseObjOpt : Option ModelClass → Payload → Except Exn Value
  | none, _ => .error (.other "NoneType object has no attribute parse_obj")
  | some m, d => m.construct d

def Value.dump : Value → Payload
  | .model _ d => d
  | .dict d => d
  | .raw _ => []

def Payload.str (p : Payload) : String :=
  String.intercalate ", " (p.map fun kv => kv.1 ++ "=" ++ toString kv.2)

def Value.jsonOrStr : Value → String
  | .model _ d => "json " ++ Payload.str d
  | .dict d => "dict " ++ Payload.str d
  | .raw s => s

def isinstanceB (v : Value) (m : ModelClass) : Bool :=
  match v with
  | .model c _ => c.superIds.contains m.id
  | _ => false

def Value.isExactly (v : Value) (m : ModelClass) : Bool :=
  match v with
  | .model c _ => c.id == m.id
  | _ => false

/-- Modelled from the spec: the `Function` step adapter
(`..function.Function`, not under src/).  Per section 4.1 a step exposes
`inputSchema`, `outputSchema`, `label`, and blocking / suspend-capable
invocation forms with identical data semantics. -/
structure Function where
  input_model : ModelClass
  output_model : ModelClass
  label : String
  name : String
  fn : Value → Except Exn Value

/-- Modelled from the spec: a plain callable with resolvable parameter and
return type annotations, from which `Function.as_Function` synthesizes a
FunctionStep (section 4.1). -/
structure Callable where
  paramAnn : ModelClass
  returnAnn : ModelClass
  cname : String
  call : Value → Except Exn Value

/-- Modelled from the spec: `Function.as_Function` wraps a plain callable
into a step by inspecting its declared parameter and return types
(section 4.1). -/
def Function.as_Function (c : Callable) : Function :=
  { input_model := c.paramAnn, output_model := c.returnAnn, label := "",
    name := c.cname, fn := c.call }

/-- Modelled from the spec: a `BaseModule` class (`..abstract.BaseModule`,
not under src/).  Per section 4.2/4.5 it exposes a suspend-capable
`run(input) -> output` with type annotations for its input and return, and
the two lifecycle hooks.  `isBaseModule` records whether the registered
class is actually a subclass of the module base type (`issubclass` test). -/
structure ModuleClass where
  isBaseModule : Bool
  mname : String
  runInputAnn : ModelClass
  runReturnAnn : ModelClass
  onProgressStartMessage : Value → Except Exn String
  run : Value → Except Exn Value
  onProgressEndMessage : Value → Except Exn String

inductive Step where
  | fn (f : Function)
  | mod (m : ModuleClass)

def Step.isValidModule : Step → Bool
  | .mod m => m.isBaseModule
  | .fn _ => false

inductive FnUnit where
  | fn (f : Function)
  | callable (c : Callable)

def FnUnit.toFunction : FnUnit → Function
  | .fn f => f
  | .callable c => Function.as_Function c

def FnUnit.toStep (u : FnUnit) : Step := Step.fn u.toFunction

structure Pipeline where
  name : String
  id : String
  sse : Bool
  input_model : Option ModelClass
  output_model : Option ModelClass
  list_functions : List Step

def Pipeline.init (name : String) (id : String) (sse : Bool) : Pipeline :=
  { name := name, id := id, sse := sse,
    input_model := none, output_model := none, list_functions := [] }

def Pipeline.input (p : Pipeline) (m : ModelClass) : Pipeline :=
  { p with input_model := some m }

def Pipeline.output (p : Pipeline) (m : ModelClass) : Pipeline :=
  { p with output_model := some m }

def fnInferInput (p : Pipeline) : Pipeline × Option Exn :=
  if p.input_model.isNone && !p.list_functions.isEmpty then
    match p.list_functions.head? with
    | some (Step.fn f) => ({ p with input_model := some f.input_model }, none)
    | some (Step.mod _) =>
        (p, some (Exn.other "AttributeError: type object has no attribute input_model"))
    | none => (p, none)
  else (p, none)

def fnInferOutput (p : Pipeline) : Pipeline × Option Exn :=
  if p.output_model.isNone && !p.list_functions.isEmpty then
    match p.list_functions.getLast? with
    | some (Step.fn f) => ({ p with output_model := some f.output_model }, none)
    | some (Step.mod _) =>
        (p, some (Exn.other "AttributeError: type object has no attribute output_model"))
    | none => (p, none)
  else (p, none)

def Pipeline.functions (p : Pipeline) (fs : List FnUnit) : Pipeline × Option Exn :=
  let p1 := { p with list_functions := p.list_functions ++ fs.map FnUnit.toStep }
  match fnInferInput p1 with
  | (p2, some e) => (p2, some e)
  | (p2, none) => fnInferOutput p2

def modulesAppend : Pipeline → List ModuleClass → Pipeline × Option Exn
  | p, [] => (p, none)
  | p, m :: rest =>
    if m.isBaseModule = true then
      modulesAppend { p with list_functions := p.list_functions ++ [Step.mod m] } rest
    else (p, some (Exn.other "The module should be of type BaseModule"))

def modInferInput (p : Pipeline) : Pipeline × Option Exn :=
  if p.input_model.isNone && !p.list_functions.isEmpty then
    match p.list_functions.head? with
    | some (Step.mod m) => ({ p with input_model := some m.runInputAnn }, none)
    | some (Step.fn _) =>
        (p, some (Exn.other "AttributeError: Function object has no attribute run"))
    | none => (p, none)
  else (p, none)

def modInferOutput (p : Pipeline) : Pipeline × Option Exn :=
  if p.output_model.isNone && !p.list_functions.isEmpty then
    match p.list_functions.getLast? with
    | some (Step.mod m) => ({ p with output_model := some m.runReturnAnn }, none)
    | some (Step.fn _) =>
        (p, some (Exn.other "AttributeError: Function object has no attribute run"))
    | none => (p, none)
  else (p, none)

def Pipeline.modules (p : Pipeline) (ms : List ModuleClass) : Pipeline × Option Exn :=
  match modulesAppend p ms with
  | (p1, some e) => (p1, some e)
  | (p1, none) =>
    match modInferInput p1 with
    | (p2, some e) => (p2, some e)
    | (p2, none) => modInferOutput p2

def runSteps : List Step → Value → Except Exn Value
  | [], d => .ok d
  | Step.fn f :: rest, d =>
    match f.fn d with
    | .error e => .error e
    | .ok d2 => runSteps rest d2
  | Step.mod _ :: _, _ =>
    .error (Exn.other "AttributeError: type object has no attribute to_function")

def Pipeline.to_function (p : Pipeline) (input_data : Value) : Except Exn Value :=
  match runSteps p.list_functions input_data with
  | .error e => .error e
  | .ok data =>
    match data with
    | Value.model _ pd => constructOpt p.output_model pd
    | d => .ok d

def Pipeline.to_afunction (p : Pipeline) (input_data : Value) : Except Exn Value :=
  match runSteps p.list_functions input_data with
  | .error e => .error e
  | .ok data =>
    match data with
    | Value.model _ pd => constructOpt p.output_model pd
    | d => .ok d

structure BuildResult where
  status : String
  result : Option Payload
  message : String
deriving DecidableEq, Repr

def Pipeline.build (p : Pipeline) (input_data : Payload) : BuildResult :=
  match constructOpt p.input_model input_data with
  | .error e =>
      { status := "failed", result := none,
        message := "Input data validation error: " ++ e.msg }
  | .ok input_instance =>
    match p.to_function input_instance with
    | .error (Exn.typeError m) =>
        { status := "failed", result := none,
          message := "Type error during pipeline execution: " ++ m }
    | .error (Exn.valueError m) =>
        { status := "failed", result := none,
          message := "Value error during pipeline execution: " ++ m }
    | .error (Exn.other m) =>
        { status := "failed", result := none,
          message := "Unexpected error during pipeline execution: " ++ m }
    | .ok output_instance =>
      match p.output_model with
      | none =>
          { status := "failed", result := none,
            message := "Error validating output model: isinstance arg 2 must be a type" }
      | some om =>
        if isinstanceB output_instance om = true then
          { status := "success", result := some output_instance.dump,
            message := "Pipeline built successfully." }
        else
          { status := "failed", result := none,
            message := "Output schema mismatch. The output did not match the expected model schema." }

def Pipeline.abuild (p : Pipeline) (input_data : Payload) : BuildResult :=
  match constructOpt p.input_model input_data with
  | .error e =>
      { status := "failed", result := none,
        message := "Input data validation error: " ++ e.msg }
  | .ok input_instance =>
    match p.to_afunction input_instance with
    | .error (Exn.typeError m) =>
        { status := "failed", result := none,
          message := "Type error during pipeline execution: " ++ m }
    | .error (Exn.valueError m) =>
        { status := "failed", result := none,
          message := "Value error during pipeline execution: " ++ m }
    | .error (Exn.other m) =>
        { status := "failed", result := none,
          message := "Unexpected error during pipeline execution: " ++ m }
    | .ok output_instance =>
      match p.output_model with
      | none =>
          { status := "failed", result := none,
            message := "Error validating output model: isinstance arg 2 must be a type" }
      | some om =>
        if isinstanceB output_instance om = true then
          { status := "success", result := some output_instance.dump,
            message := "Pipeline built successfully." }
        else
          { status := "failed", result := none,
            message := "Output schema mismatch. The output did not match the expected model schema." }

def Pipeline.convert_input (p : Pipeline) (v : Value) : Except Exn Value :=
  match v with
  | .dict d => constructOpt p.input_model d
  | .model _ d => parseObjOpt p.input_model d
  | .raw s => .ok (.raw s)

structure Event where
  message : String
  status : String
  data : Option String
deriving DecidableEq, Repr

def endEvent : Event := { message := "", status := "End", data := none }

def sseWarningEvent : Event :=
  { message := "SSE is not activated in the pipeline", status := "Exception", data := none }

def invalidModuleMsg : String :=
  "Exception: The function type passed to the pipeline should be an instance of BaseModule"

def jsonDataField : Value → Except Exn String
  | Value.model _ _ => .error (Exn.typeError "Object of type BaseModel is not JSON serializable")
  | Value.dict d => .ok (Payload.str d)
  | Value.raw s => .ok s

def coerceDict (m : ModuleClass) : Value → Except Exn Value
  | Value.dict pd => m.runReturnAnn.construct pd
  | x => Except.ok x

def sseLoop : List Step → Value → List Event × Option Exn
  | [], _ => ([], none)
  | Step.fn _ :: _, _ => ([], some (Exn.typeError "issubclass arg 1 must be a class"))
  | Step.mod m :: rest, data =>
    if m.isBaseModule = true then
      match m.onProgressStartMessage data with
      | .error e => ([], some e)
      | .ok startMsg =>
        let ev1 : Event :=
          { message := startMsg, status := "onProgressStartMessage", data := some data.jsonOrStr }
        match m.run data with
        | .error e => ([ev1], some e)
        | .ok d1 =>
          match coerceDict m d1 with
          | .error e => ([ev1], some e)
          | .ok d2 =>
            let ev2 : Event :=
              { message := "", status := "onFunctionCompleted", data := some d2.jsonOrStr }
            match m.onProgressEndMessage d2 with
            | .error e => ([ev1, ev2], some e)
            | .ok endMsg =>
              let ev3 : Event :=
                { message := endMsg, status := "onProgressEndMessage", data := some d2.jsonOrStr }
              let r := sseLoop rest d2
              (ev1 :: ev2 :: ev3 :: r.1, r.2)
    else
      match jsonDataField data with
      | .error e => ([], some e)
      | .ok ds =>
        let r := sseLoop rest data
        ({ message := invalidModuleMsg, status := "Exception", data := some ds } :: r.1, r.2)

def Pipeline.sse_generator (p : Pipeline) (input_data : Value) : List Event × Option Exn :=
  let pre : List Event := if p.sse = true then [] else [sseWarningEvent]
  match p.convert_input input_data with
  | .error e => (pre, some e)
  | .ok data =>
    let r := sseLoop p.list_functions data
    match r.2 with
    | some e => (pre ++ r.1, some e)
    | none => (pre ++ r.1 ++ [endEvent], none)

def modulesRun : List Step → Value → Except Exn Value
  | [], d => .ok d
  | Step.fn _ :: _, _ => .error (Exn.typeError "issubclass arg 1 must be a class")
  | Step.mod m :: rest, d =>
    if m.isBaseModule = true then
      match m.run d with
      | .error e => .error e
      | .ok d1 =>
        match coerceDict m d1 with
        | .error e => .error e
        | .ok d2 => modulesRun rest d2
    else .error (Exn.other "The model should be type of BaseModule")

def Pipeline.arun_modules (p : Pipeline) (input_data : Value) : Except Exn Value :=
  match p.convert_input input_data with
  | .error e => .error e
  | .ok data => modulesRun p.list_functions data

def Pipeline.arun (p : Pipeline) (input_data : Value) : Except Exn Value :=
  if p.sse = true then p.arun_modules input_data
  else
    match p.convert_input input_data with
    | .error e => .error e
    | .ok inst => p.to_afunction inst

def Pipeline.get_input_schema (p : Pipeline) : Option Nat :=
  p.input_model.map ModelClass.id

def Pipeline.get_output_schema (p : Pipeline) : Option Nat :=
  p.output_model.map ModelClass.id

/-! Concrete fixtures used by witnesses and counterexamples. -/

def schemaA : ModelClass :=
  { id := 1, superIds := [1, 0], constructExn := fun _ => none }

def schemaB : ModelClass :=
  { id := 2, superIds := [2, 0], constructExn := fun _ => some (Exn.valueError "field required") }

def fnIdA : Function :=
  { input_model := schemaA, output_model := schemaA, label := "", name := "idA",
    fn := fun v => Except.ok v }

def fnBoom : Function :=
  { input_model := schemaA, output_model := schemaA, label := "", name := "boom",
    fn := fun _ => Except.error (Exn.valueError "boom") }

def modGood : ModuleClass :=
  { isBaseModule := true, mname := "good", runInputAnn := schemaA, runReturnAnn := schemaA,
    onProgressStartMessage := fun _ => Except.ok "starting",
    run := fun v => Except.ok v,
    onProgressEndMessage := fun _ => Except.ok "done" }

def modBoom : ModuleClass :=
  { modGood with mname := "boom", run := fun _ => Except.error (Exn.valueError "boom") }

def modBad : ModuleClass :=
  { modGood with mname := "bad", isBaseModule := false }

def pipeA : Pipeline := ((Pipeline.init "p" "pid" false).functions [FnUnit.fn fnIdA]).1

def pipeBoom : Pipeline := ((Pipeline.init "pb" "pid" false).functions [FnUnit.fn fnBoom]).1

def pipeSse : Pipeline := ((Pipeline.init "ps" "pid" true).modules [modGood]).1

def pipeSseBoom : Pipeline := ((Pipeline.init "pf" "pid" true).modules [modBoom]).1

def pipeEmpty : Pipeline := ((Pipeline.init "pe" "pid" false).input schemaA).output schemaA

def pipeEmptySse : Pipeline := ((Pipeline.init "pes" "pid" true).input schemaA).output schemaA

def dX : Payload := [("x", 1)]

def stepStatuses : Nat → List String
  | 0 => []
  | n + 1 =>
      "onProgressStartMessage" :: "onFunctionCompleted" :: "onProgressEndMessage" ::
        stepStatuses n

/-! Helper lemmas shared between the claim theorems. -/

theorem to_afunction_eq (p : Pipeline) (v : Value) : p.to_afunction v = p.to_function v := rfl

theorem stepStatuses_length (n : Nat) : (stepStatuses n).length = 3 * n := by
  induction n with
  | zero => rfl
  | succ n ih =>
    simp only [stepStatuses, List.length_cons, ih]
    ring

theorem modulesAppend_good (gs : List ModuleClass) (hgs : ∀ m ∈ gs, m.isBaseModule = true) :
    ∀ p : Pipeline, modulesAppend p gs =
      ({ p with list_functions := p.list_functions ++ gs.map Step.mod }, none) := by
  induction gs with
  | nil => intro p; simp [modulesAppend]
  | cons m rest ih =>
    intro p
    have hm : m.isBaseModule = true := hgs m (List.mem_cons_self m rest)
    have hrest : ∀ x ∈ rest, x.isBaseModule = true :=
      fun x hx => hgs x (List.mem_cons_of_mem m hx)
    simp only [modulesAppend, hm, if_true, ih hrest]
    simp [List.append_assoc]

theorem modulesAppend_bad (gs : List ModuleClass) (bad : ModuleClass)
    (rest : List ModuleClass) (hgs : ∀ m ∈ gs, m.isBaseModule = true)
    (hbad : bad.isBaseModule = false) (p : Pipeline) :
    modulesAppend p (gs ++ bad :: rest) =
      ({ p with list_functions := p.list_functions ++ gs.map Step.mod },
       some (Exn.other "The module should be of type BaseModule")) := by
  induction gs generalizing p with
  | nil => simp [modulesAppend, hbad]
  | cons m gs ih =>
    have hm : m.isBaseModule = true := hgs m (List.mem_cons_self m gs)
    have hgs2 : ∀ x ∈ gs, x.isBaseModule = true :=
      fun x hx => hgs x (List.mem_cons_of_mem m hx)
    simp only [List.cons_append, modulesAppend, hm, if_true, List.append_eq]
    rw [ih hgs2]
    simp [List.append_assoc]

/-- C10: module registration is not atomic on error.  For every definition and
every unit list splitting as valid modules, a first offending non-module unit,
and a remainder, `modules` raises on the offending unit; every preceding unit
has been appended to the step list and stays appended, and no schema inference
is performed: the definition is left partially mutated with its schemas
untouched. -/
theorem c10_modules_partial_mutation (p : Pipeline) (gs : List ModuleClass)
    (bad : ModuleClass) (rest : List ModuleClass)
    (hgs : ∀ m ∈ gs, m.isBaseModule = true) (hbad : bad.isBaseModule = false) :
    p.modules (gs ++ bad :: rest) =
      ({ p with list_functions := p.list_functions ++ gs.map Step.mod },
       some (Exn.other "The module should be of type BaseModule")) := by
  unfold Pipeline.modules
  rw [modulesAppend_bad gs bad rest hgs hbad p]

/-- C10 witness: registering `[modGood, modBad, modGood]` on a fresh sse
pipeline appends only `modGood`, raises on `modBad`, and leaves both schemas
unset. -/
theorem c10_witness :
    (Pipeline.init "m" "mid" true).modules [modGood, modBad, modGood] =
      ({ Pipeline.init "m" "mid" true with
          list_functions := (Pipeline.init "m" "mid" true).list_functions ++ [modGood].map Step.mod },
       some (Exn.other "The module should be of type BaseModule")) :=
  c10_modules_partial_mutation (Pipeline.init "m" "mid" true) [modGood] modBad [modGood]
    (fun m hm => by rcases List.mem_singleton.mp hm with rfl; rfl) rfl

/-- C2: `build` and `abuild` are total error boundaries.  Both are total Lean
functions of the pipeline and the input mapping (every internal failure is a
caught `Exn`), always return a structured record with status, result and
message fields, and every non-success outcome has status "failed" with result
null. -/
theorem c2_build_abuild_error_boundary (p : Pipeline) (d : Payload) :
    (((p.build d).status = "success") ∨
      ((p.build d).status = "failed" ∧ (p.build d).result = none)) ∧
    (((p.abuild d).status = "success") ∨
      ((p.abuild d).status = "failed" ∧ (p.abuild d).result = none)) := by
  constructor
  · unfold Pipeline.build
    repeat' split
    all_goals first | exact Or.inl rfl | exact Or.inr ⟨rfl, rfl⟩
  · unfold Pipeline.abuild
    repeat' split
    all_goals first | exact Or.inl rfl | exact Or.inr ⟨rfl, rfl⟩

/-- C7 fails on the code: the schema setters assign unconditionally, so a
later explicit call after steps were appended does change the schema used by
subsequent compilation and execution.  Concretely, `pipeA` infers input schema
`schemaA` (id 1) from its only step; calling the input setter with `schemaB`
(id 2) afterwards replaces it, and `build` on the same mapping flips from
success to an input-validation failure. -/
theorem c7_counterexample :
    pipeA.get_input_schema = some 1 ∧
    (pipeA.input schemaB).get_input_schema = some 2 ∧
    (pipeA.build dX).status = "success" ∧
    ((pipeA.input schemaB).build dX).status = "failed" :=
  ⟨rfl, rfl, rfl, rfl⟩

/-- C7 amended: once steps are appended both schemas are resolved, but they do
not remain fixed: a later explicit setter call overwrites the stored schema
and is what subsequent compilation and execution use — resolution is
last-write-wins, inference only fills a side that is still unset at append
time. -/
theorem c7_schema_setter_last_write_wins (p : Pipeline) (m : ModelClass)
    (d : Payload) (e : Exn) (hrej : m.constructExn d = some e) :
    (p.input m).input_model = some m ∧
    (p.output m).output_model = some m ∧
    (p.input m).build d =
      { status := "failed", result := none,
        message := "Input data validation error: " ++ e.msg } := by
  refine ⟨rfl, rfl, ?_⟩
  unfold Pipeline.build
  simp [Pipeline.input, constructOpt, ModelClass.construct, hrej]

/-- C7 witness: overriding `pipeA`'s inferred input schema with the
all-rejecting `schemaB` makes `build` fail input validation. -/
theorem c7_witness :
    (pipeA.input schemaB).input_model = some schemaB ∧
    (pipeA.output schemaB).output_model = some schemaB ∧
    (pipeA.input schemaB).build dX =
      { status := "failed", result := none,
        message := "Input data validation error: " ++ (Exn.valueError "field required").msg } :=
  c7_schema_setter_last_write_wins pipeA schemaB dX (Exn.valueError "field required") rfl

/-- C9 fails on the code: a zero-step definition with explicitly set matching
schemas silently succeeds under `build` (the empty compiled chain returns the
re-coerced input), instead of failing with a clear, distinct error. -/
theorem c9_counterexample :
    pipeEmpty.list_functions = [] ∧
    pipeEmpty.build dX =
      { status := "success", result := some dX, message := "Pipeline built successfully." } :=
  ⟨rfl, rfl⟩

/-- C9 amended: registering an empty list of steps on a definition with no
steps is a no-op for both registration paths; but `build` and the streaming
generator on a zero-step definition do not fail with a distinct zero-step
error: with schemas unset `build` returns a failure tagged as an input
validation error (from calling the null schema), with both schemas explicitly
set and the input validating under both it silently succeeds with the input
echoed back, and the streaming generator yields only the terminal End frame. -/
theorem c9_empty_steps_amended (p : Pipeline) (hsteps : p.list_functions = []) :
    p.functions [] = (p, none) ∧
    p.modules [] = (p, none) ∧
    (p.input_model = none → ∀ d : Payload,
      (p.build d).status = "failed" ∧
      (p.build d).message =
        "Input data validation error: " ++ "NoneType object is not callable") ∧
    (∀ (d : Payload) (im om : ModelClass), p.input_model = some im →
      p.output_model = some om → im.constructExn d = none → om.constructExn d = none →
      om.id ∈ om.superIds →
      p.build d =
        { status := "success", result := some d, message := "Pipeline built successfully." }) ∧
    (∀ (dd : Payload) (im : ModelClass), p.sse = true → p.input_model = some im →
      im.constructExn dd = none →
      p.sse_generator (Value.dict dd) = ([endEvent], none)) := by
  obtain ⟨nm, pid, sse, im0, om0, lf⟩ := p
  simp only at hsteps
  subst hsteps
  refine ⟨?_, ?_, ?_, ?_, ?_⟩
  · simp [Pipeline.functions, fnInferInput, fnInferOutput]
  · simp [Pipeline.modules, modulesAppend, modInferInput, modInferOutput]
  · intro him d
    simp only at him
    subst him
    exact ⟨rfl, rfl⟩
  · intro d im om him hom hcon1 hcon2 hmem
    simp only at him hom
    subst him; subst hom
    unfold Pipeline.build Pipeline.to_function
    simp [constructOpt, ModelClass.construct, hcon1, hcon2, runSteps, isinstanceB,
      Value.dump, List.contains_iff_exists_mem_beq]
    exact hmem
  · intro dd im hsse him hcon
    simp only at hsse him
    subst hsse; subst him
    unfold Pipeline.sse_generator Pipeline.convert_input
    simp [constructOpt, ModelClass.construct, hcon, sseLoop]

/-- C3: when neither schema was set explicitly before the first registration
call (so the definition is still empty), registering a non-empty list of steps
resolves the input schema to the first step's input schema and the output
schema to the last step's output schema, on both the function-step path
(`functions`, schemas read off the wrapped `Function`) and the module-step
path (`modules`, schemas read off the run annotations). -/
theorem c3_schema_inference_first_last (p : Pipeline)
    (hin : p.input_model = none) (hout : p.output_model = none)
    (hsteps : p.list_functions = [])
    (fs : List FnUnit) (hfs : fs ≠ [])
    (ms : List ModuleClass) (hms : ms ≠ []) (hall : ∀ m ∈ ms, m.isBaseModule = true) :
    ((p.functions fs).1.input_model = fs.head?.map (fun u => u.toFunction.input_model) ∧
     (p.functions fs).1.output_model = fs.getLast?.map (fun u => u.toFunction.output_model)) ∧
    ((p.modules ms).1.input_model = ms.head?.map (fun m => m.runInputAnn) ∧
     (p.modules ms).1.output_model = ms.getLast?.map (fun m => m.runReturnAnn)) := by
  obtain ⟨nm, pid, sse, im0, om0, lf⟩ := p
  simp only at hin hout hsteps
  subst hin; subst hout; subst hsteps
  constructor
  · obtain ⟨u, us, rfl⟩ := List.exists_cons_of_ne_nil hfs
    cases hL : (u :: us).getLast? with
    | none => exact absurd (List.getLast?_eq_none_iff.mp hL) (List.cons_ne_nil u us)
    | some l =>
      unfold Pipeline.functions fnInferInput fnInferOutput
      simp only [List.nil_append, List.map_cons, List.head?_cons, Option.isNone_none,
        List.isEmpty_cons, Bool.not_false, Bool.and_self, if_true, FnUnit.toStep]
      have hL2 : (Step.fn u.toFunction :: List.map FnUnit.toStep us).getLast? =
          some (Step.fn l.toFunction) := by
        have hmap := List.getLast?_map FnUnit.toStep (u :: us)
        rw [hL] at hmap
        simpa [FnUnit.toStep] using hmap
      rw [hL2]
      exact ⟨rfl, rfl⟩
  · obtain ⟨m0, ms2, rfl⟩ := List.exists_cons_of_ne_nil hms
    cases hL : (m0 :: ms2).getLast? with
    | none => exact absurd (List.getLast?_eq_none_iff.mp hL) (List.cons_ne_nil m0 ms2)
    | some l =>
      unfold Pipeline.modules
      rw [modulesAppend_good (m0 :: ms2) hall]
      have hL2 : (Step.mod m0 :: List.map Step.mod ms2).getLast? = some (Step.mod l) := by
        have hmap := List.getLast?_map Step.mod (m0 :: ms2)
        rw [hL] at hmap
        simpa using hmap
      unfold modInferInput modInferOutput
      simp only [List.nil_append, List.map_cons, List.head?_cons, Option.isNone_none,
        List.isEmpty_cons, Bool.not_false, Bool.and_self, if_true]
      rw [hL2]
      exact ⟨rfl, rfl⟩

/-- C3 witness: a fresh definition registering one function step (resp. one
module step) infers both schemas from that step. -/
theorem c3_witness :
    (((Pipeline.init "w" "wid" false).functions [FnUnit.fn fnIdA]).1.input_model =
        [FnUnit.fn fnIdA].head?.map (fun u => u.toFunction.input_model) ∧
     ((Pipeline.init "w" "wid" false).functions [FnUnit.fn fnIdA]).1.output_model =
        [FnUnit.fn fnIdA].getLast?.map (fun u => u.toFunction.output_model)) ∧
    (((Pipeline.init "w" "wid" false).modules [modGood]).1.input_model =
        [modGood].head?.map (fun m => m.runInputAnn) ∧
     ((Pipeline.init "w" "wid" false).modules [modGood]).1.output_model =
        [modGood].getLast?.map (fun m => m.runReturnAnn)) :=
  c3_schema_inference_first_last (Pipeline.init "w" "wid" false) rfl rfl rfl
    [FnUnit.fn fnIdA] (List.cons_ne_nil _ _)
    [modGood] (List.cons_ne_nil _ _)
    (fun m hm => by rcases List.mem_singleton.mp hm with rfl; rfl)

/-- C9 witness: the amended behavior evaluated on the concrete zero-step
pipelines `pipeEmpty` and `pipeEmptySse`. -/
theorem c9_witness :
    pipeEmptySse.functions [] = (pipeEmptySse, none) ∧
    pipeEmptySse.modules [] = (pipeEmptySse, none) ∧
    (pipeEmptySse.input_model = none → ∀ d : Payload,
      (pipeEmptySse.build d).status = "failed" ∧
      (pipeEmptySse.build d).message =
        "Input data validation error: " ++ "NoneType object is not callable") ∧
    (∀ (d : Payload) (im om : ModelClass), pipeEmptySse.input_model = some im →
      pipeEmptySse.output_model = some om → im.constructExn d = none →
      om.constructExn d = none → om.id ∈ om.superIds →
      pipeEmptySse.build d =
        { status := "success", result := some d, message := "Pipeline built successfully." }) ∧
    (∀ (dd : Payload) (im : ModelClass), pipeEmptySse.sse = true →
      pipeEmptySse.input_model = some im → im.constructExn dd = none →
      pipeEmptySse.sse_generator (Value.dict dd) = ([endEvent], none)) :=
  c9_empty_steps_amended pipeEmptySse rfl

theorem sseLoop_statuses (l : List Step) (d : Value)
    (hall : ∀ s ∈ l, s.isValidModule = true) (hok : (sseLoop l d).2 = none) :
    (sseLoop l d).1.map Event.status = stepStatuses l.length := by
  induction l generalizing d with
  | nil => simp [sseLoop, stepStatuses]
  | cons s rest ih =>
    have hs := hall s (List.mem_cons_self s rest)
    have hrest : ∀ x ∈ rest, x.isValidModule = true :=
      fun x hx => hall x (List.mem_cons_of_mem s hx)
    cases s with
    | fn f => simp [Step.isValidModule] at hs
    | mod m =>
      have hm : m.isBaseModule = true := hs
      simp only [sseLoop, hm, if_true] at hok ⊢
      cases h1 : m.onProgressStartMessage d with
      | error e => rw [h1] at hok; simp at hok
      | ok startMsg =>
        rw [h1] at hok
        dsimp only at hok ⊢
        cases h2 : m.run d with
        | error e => rw [h2] at hok; simp at hok
        | ok d1 =>
          rw [h2] at hok
          dsimp only at hok ⊢
          cases h3 : coerceDict m d1 with
          | error e => rw [h3] at hok; simp at hok
          | ok d2 =>
            rw [h3] at hok
            dsimp only at hok ⊢
            cases h4 : m.onProgressEndMessage d2 with
            | error e => rw [h4] at hok; simp at hok
            | ok endMsg =>
              rw [h4] at hok
              dsimp only at hok ⊢
              simp only [List.map_cons, List.length_cons, stepStatuses]
              rw [ih d2 hrest hok]

/-- C4: for a module-style pipeline of N steps in which the input conversion
and every module hook and run invocation succeed (the generator raises no
internal exception), the streaming generator yields exactly 3N + 1 events:
for each step in sequence a start, a completed and an end event, then exactly
one terminal End event. -/
theorem c4_stream_event_count (p : Pipeline) (i : Value)
    (hsse : p.sse = true)
    (hall : ∀ s ∈ p.list_functions, s.isValidModule = true)
    (hok : (p.sse_generator i).2 = none) :
    (p.sse_generator i).1.length = 3 * p.list_functions.length + 1 ∧
    (p.sse_generator i).1.map Event.status =
      stepStatuses p.list_functions.length ++ ["End"] := by
  unfold Pipeline.sse_generator at hok ⊢
  rw [hsse] at hok ⊢
  simp only [if_true] at hok ⊢
  cases hc : p.convert_input i with
  | error e => rw [hc] at hok; simp at hok
  | ok data =>
    rw [hc] at hok
    dsimp only at hok ⊢
    cases hr : (sseLoop p.list_functions data).2 with
    | some e => rw [hr] at hok; simp at hok
    | none =>
      simp only [hr]
      have hmap := sseLoop_statuses p.list_functions data hall hr
      constructor
      · have hlen : (sseLoop p.list_functions data).1.length = 3 * p.list_functions.length := by
          have hlen2 := congrArg List.length hmap
          simpa [stepStatuses_length] using hlen2
        simp [hlen]
      · simp [hmap, endEvent]

/-- C4 witness: the one-module pipeline `pipeSse` streams 3 * 1 + 1 = 4
events with statuses start, completed, end, End. -/
theorem c4_witness :
    (pipeSse.sse_generator (Value.dict dX)).1.length = 3 * pipeSse.list_functions.length + 1 ∧
    (pipeSse.sse_generator (Value.dict dX)).1.map Event.status =
      stepStatuses pipeSse.list_functions.length ++ ["End"] :=
  c4_stream_event_count pipeSse (Value.dict dX) rfl
    (fun s hs => by
      rw [show pipeSse.list_functions = [Step.mod modGood] from rfl] at hs
      rcases List.mem_singleton.mp hs with rfl
      rfl)
    rfl

/-- C5 fails on the code: the streaming generator has no internal exception
handler, so an exception raised by a module's run aborts the stream.  On
`pipeSseBoom` (whose single module's run raises a ValueError) the generator
yields only the start event — the last yielded frame is not the End frame —
and then raises. -/
theorem c5_counterexample :
    (pipeSseBoom.sse_generator (Value.dict dX)).1.getLast?.map Event.status ≠ some "End" ∧
    (pipeSseBoom.sse_generator (Value.dict dX)).2 = some (Exn.valueError "boom") := by
  exact ⟨by decide, rfl⟩

/-- C5 amended: the stream ends with a status "End", data null frame whenever
the generator raises no internal exception; an exception raised while
constructing the input instance or by a module hook, run, or result
re-coercion propagates out of the generator and aborts the stream without the
terminal frame (only the invalid-module-type report and the sse-not-activated
warning are emitted as events instead of raised). -/
theorem c5_stream_end_frame_amended (p : Pipeline) (i : Value)
    (hok : (p.sse_generator i).2 = none) :
    (p.sse_generator i).1.getLast? = some endEvent := by
  unfold Pipeline.sse_generator at hok ⊢
  cases hc : p.convert_input i with
  | error e => rw [hc] at hok; simp at hok
  | ok data =>
    rw [hc] at hok
    dsimp only at hok ⊢
    cases hr : (sseLoop p.list_functions data).2 with
    | some e => rw [hr] at hok; simp at hok
    | none =>
      simp only [hr]
      simp [List.getLast?_concat]

/-- C5 witness: on the all-success module pipeline `pipeSse` the stream ends
with the End frame. -/
theorem c5_witness :
    (pipeSse.sse_generator (Value.dict dX)).1.getLast? = some endEvent :=
  c5_stream_end_frame_amended pipeSse (Value.dict dX) rfl

/-- C6: invoking the streaming generator on a pipeline whose sse flag is
false first emits exactly one Exception-tagged event stating that SSE is not
activated, and then behaves exactly as the same pipeline with sse set to
true: it proceeds to enumerate and execute the registered steps as
module-style steps rather than terminating. -/
theorem c6_sse_not_activated_warning (p : Pipeline) (i : Value) (hsse : p.sse = false) :
    p.sse_generator i =
      (sseWarningEvent :: (({ p with sse := true }).sse_generator i).1,
       (({ p with sse := true }).sse_generator i).2) := by
  obtain ⟨nm, pid, sse, im0, om0, lf⟩ := p
  simp only at hsse
  subst hsse
  show Pipeline.sse_generator ⟨nm, pid, false, im0, om0, lf⟩ i = _
  unfold Pipeline.sse_generator
  simp only [Pipeline.convert_input]
  cases i with
  | dict d =>
    simp only
    cases hc : constructOpt im0 d with
    | error e => simp
    | ok data =>
      cases hr : (sseLoop lf data).2 <;> simp [hr]
  | model c dd =>
    simp only
    cases hc : parseObjOpt im0 dd with
    | error e => simp
    | ok data =>
      cases hr : (sseLoop lf data).2 <;> simp [hr]
  | raw s =>
    simp only
    cases hr : (sseLoop lf (Value.raw s)).2 <;> simp [hr]

/-- C6 witness: on the non-sse pipeline `pipeA` the generator's output is the
warning event followed by exactly the module-style enumeration. -/
theorem c6_witness :
    pipeA.sse_generator (Value.dict dX) =
      (sseWarningEvent :: (({ pipeA with sse := true }).sse_generator (Value.dict dX)).1,
       (({ pipeA with sse := true }).sse_generator (Value.dict dX)).2) :=
  c6_sse_not_activated_warning pipeA (Value.dict dX) rfl

theorem to_function_ok_model (p : Pipeline) (om : ModelClass)
    (hom : p.output_model = some om) (v : Value) (c : ModelClass) (pd : Payload)
    (h : p.to_function v = .ok (Value.model c pd)) : c = om := by
  unfold Pipeline.to_function at h
  cases hr : runSteps p.list_functions v with
  | error e => rw [hr] at h; simp at h
  | ok data =>
    rw [hr] at h
    cases data with
    | model c2 pd2 =>
      dsimp only at h
      rw [hom] at h
      simp only [constructOpt, ModelClass.construct] at h
      cases hce : om.constructExn pd2 with
      | some e => rw [hce] at h; simp at h
      | none =>
        rw [hce] at h
        simp only [Except.ok.injEq, Value.model.injEq] at h
        exact h.1.symm
    | dict dd => simp at h
    | raw s => simp at h

/-- C1: for every pipeline with a declared (well-formed) output schema and
every input mapping that validates against the declared input schema, `build`
returns status "success" if and only if the compiled chain returns a value
whose schema identity is exactly the declared output schema (every step and
the final re-coercion succeed); on success the result field is the dumped
output mapping, and on a schema mismatch `build` returns status "failed" with
the output-schema-mismatch message.  The check is an exact identity check:
the success condition is stated with `Value.isExactly` (class id equality),
not the subclass-tolerant `isinstance`. -/
theorem c1_build_success_iff_output_schema (p : Pipeline) (om : ModelClass)
    (d : Payload) (inst : Value)
    (hom : p.output_model = some om)
    (hwf : om.id ∈ om.superIds)
    (hin : constructOpt p.input_model d = .ok inst) :
    ((p.build d).status = "success" ↔
      ∃ v, p.to_function inst = .ok v ∧ v.isExactly om = true) ∧
    (∀ v, p.to_function inst = .ok v → v.isExactly om = true →
      p.build d = { status := "success", result := some v.dump,
                    message := "Pipeline built successfully." }) ∧
    (∀ v, p.to_function inst = .ok v → v.isExactly om = false →
      p.build d = { status := "failed", result := none,
                    message := "Output schema mismatch. The output did not match the expected model schema." }) := by
  have hred : p.build d =
      match p.to_function inst with
      | .error (Exn.typeError m) =>
          { status := "failed", result := none,
            message := "Type error during pipeline execution: " ++ m }
      | .error (Exn.valueError m) =>
          { status := "failed", result := none,
            message := "Value error during pipeline execution: " ++ m }
      | .error (Exn.other m) =>
          { status := "failed", result := none,
            message := "Unexpected error during pipeline execution: " ++ m }
      | .ok output_instance =>
        if isinstanceB output_instance om = true then
          { status := "success", result := some output_instance.dump,
            message := "Pipeline built successfully." }
        else
          { status := "failed", result := none,
            message := "Output schema mismatch. The output did not match the expected model schema." } := by
    unfold Pipeline.build
    rw [hin, hom]
  cases hf : p.to_function inst with
  | error e =>
    rw [hf] at hred
    cases e with
    | typeError m =>
      refine ⟨?_, ?_, ?_⟩
      · rw [hred]
        dsimp only
        constructor
        · intro hcontra; exact absurd hcontra (by decide)
        · rintro ⟨v, hv, _⟩; exact absurd hv (by simp)
      · intro v hv _; exact absurd hv (by simp)
      · intro v hv _; exact absurd hv (by simp)
    | valueError m =>
      refine ⟨?_, ?_, ?_⟩
      · rw [hred]
        dsimp only
        constructor
        · intro hcontra; exact absurd hcontra (by decide)
        · rintro ⟨v, hv, _⟩; exact absurd hv (by simp)
      · intro v hv _; exact absurd hv (by simp)
      · intro v hv _; exact absurd hv (by simp)
    | other m =>
      refine ⟨?_, ?_, ?_⟩
      · rw [hred]
        dsimp only
        constructor
        · intro hcontra; exact absurd hcontra (by decide)
        · rintro ⟨v, hv, _⟩; exact absurd hv (by simp)
      · intro v hv _; exact absurd hv (by simp)
      · intro v hv _; exact absurd hv (by simp)
  | ok out =>
    rw [hf] at hred
    cases out with
    | model c pd =>
      have hc : c = om := to_function_ok_model p om hom inst c pd hf
      subst hc
      have hinst : isinstanceB (Value.model c pd) c = true := by
        simp [isinstanceB, List.contains_iff_exists_mem_beq]
        exact hwf
      dsimp only at hred
      rw [hinst] at hred
      simp only [if_true] at hred
      have hex : (Value.model c pd).isExactly c = true := by simp [Value.isExactly]
      refine ⟨?_, ?_, ?_⟩
      · rw [hred]
        dsimp only
        constructor
        · intro _; exact ⟨Value.model c pd, rfl, hex⟩
        · intro _; rfl
      · intro v hv _
        rw [Except.ok.injEq] at hv
        subst hv
        exact hred
      · intro v hv hvex
        rw [Except.ok.injEq] at hv
        subst hv
        rw [hex] at hvex
        exact absurd hvex (by decide)
    | dict dd =>
      dsimp only at hred
      rw [if_neg (by simp [isinstanceB])] at hred
      refine ⟨?_, ?_, ?_⟩
      · rw [hred]
        dsimp only
        constructor
        · intro hcontra; exact absurd hcontra (by decide)
        · rintro ⟨v, hv, hvex⟩
          rw [Except.ok.injEq] at hv
          subst hv
          exact absurd hvex (by simp [Value.isExactly])
      · intro v hv hvex
        rw [Except.ok.injEq] at hv
        subst hv
        exact absurd hvex (by simp [Value.isExactly])
      · intro v hv _
        rw [Except.ok.injEq] at hv
        subst hv
        exact hred
    | raw st =>
      dsimp only at hred
      rw [if_neg (by simp [isinstanceB])] at hred
      refine ⟨?_, ?_, ?_⟩
      · rw [hred]
        dsimp only
        constructor
        · intro hcontra; exact absurd hcontra (by decide)
        · rintro ⟨v, hv, hvex⟩
          rw [Except.ok.injEq] at hv
          subst hv
          exact absurd hvex (by simp [Value.isExactly])
      · intro v hv hvex
        rw [Except.ok.injEq] at hv
        subst hv
        exact absurd hvex (by simp [Value.isExactly])
      · intro v hv _
        rw [Except.ok.injEq] at hv
        subst hv
        exact hred

/-- C1 witness: on `pipeA` with validating input and exact output schema
identity, the success equivalence holds and evaluates to success. -/
theorem c1_witness :
    (pipeA.build dX).status = "success" ↔
      ∃ v, pipeA.to_function (Value.model schemaA dX) = .ok v ∧ v.isExactly schemaA = true :=
  (c1_build_success_iff_output_schema pipeA schemaA dX (Value.model schemaA dX)
    rfl (by decide) rfl).1

/-- C8: on a plain (non-sse) pipeline, for every input mapping that validates
against the input schema and on which the compiled chain raises a value-level
fault, `build` returns status "failed" with result null and a message tagged
as a value error, whereas the raw suspend-capable `arun` entry point on the
same pipeline and input propagates the same fault to the caller instead of
catching it. -/
theorem c8_value_error_build_vs_arun (p : Pipeline) (d : Payload) (inst : Value) (m : String)
    (hsse : p.sse = false)
    (hin : constructOpt p.input_model d = .ok inst)
    (hrun : p.to_function inst = .error (Exn.valueError m)) :
    p.build d = { status := "failed", result := none,
                  message := "Value error during pipeline execution: " ++ m } ∧
    p.arun (Value.dict d) = .error (Exn.valueError m) := by
  constructor
  · unfold Pipeline.build
    rw [hin]
    dsimp only
    rw [hrun]
  · unfold Pipeline.arun
    rw [hsse]
    simp only [Bool.false_eq_true, if_false, Pipeline.convert_input]
    rw [hin]
    dsimp only
    rw [to_afunction_eq, hrun]

/-- C8 witness: `pipeBoom`, whose single step raises a ValueError, yields the
value-tagged failure from `build` and the uncaught fault from `arun`. -/
theorem c8_witness :
    pipeBoom.build dX =
      { status := "failed", result := none,
        message := "Value error during pipeline execution: " ++ "boom" } ∧
    pipeBoom.arun (Value.dict dX) = .error (Exn.valueError "boom") :=
  c8_value_error_build_vs_arun pipeBoom dX (Value.model schemaA dX) "boom" rfl rfl rfl

end Brickblock
